import Mathlib

/-!
# Shallow embedding of `script_manager.py` (Script Manager plugin)

This file embeds the core of the Script Manager plugin — the Risk Scanner
(`SafeScriptExecutor.validate_script_imports` and `RISKY_PATTERNS`), the
Metadata Parser (`ScriptManager._parse_docstring_field` / `get_script_info`),
the Execution Namespace Builder (`SafeScriptExecutor.prepare_safe_namespace`),
and the Runner (`ScriptManager.execute_script`) — as executable Lean
definitions, and proves/refutes the specification's claims about them.

Python-runtime facts used by the embedding: `str.split('\n')` splits on every
newline keeping empty pieces; `str.lstrip()` / `str.strip()` strip Python
whitespace; `except Exception` catches `Exception`-derived classes but not
`BaseException`-only classes such as `SystemExit`; regular-expression
constructs (`\b`, `\s*`, `(?<!\w)`, lazy `[\s\S]*?`) have their standard
`re`-module semantics.  Character classes are modelled over ASCII, which the
claims exercise.
-/

namespace ScriptManagerModel

/-- Python whitespace characters (the `\s` class and `str.strip` set, ASCII). -/
def pyIsSpace (c : Char) : Bool :=
  c = ' ' || c = '\t' || c = '\n' || c = '\r' || c = '\x0b' || c = '\x0c'

/-- Python regex word character `\w` (ASCII part). -/
def isWordChar (c : Char) : Bool :=
  c.isAlphanum || c = '_'

/-- Wordness of an optional character; `none` (string edge) counts as non-word. -/
def wordOpt : Option Char → Bool
  | some c => isWordChar c
  | none => false

/-- Python `content.split('\n')`: split a character list at every newline,
keeping empty pieces (`"".split('\n') == ['']`). -/
def pySplit : List Char → List (List Char)
  | [] => [[]]
  | c :: cs =>
    if c = '\n' then [] :: pySplit cs
    else
      match pySplit cs with
      | [] => [[c]]
      | l :: ls => (c :: l) :: ls

/-- Python `'\n'.join(lines)`. -/
def pyJoinNl : List (List Char) → List Char
  | [] => []
  | [l] => l
  | l :: ls => l ++ '\n' :: pyJoinNl ls

/-- `line.lstrip().startswith('#')`: the line's first non-whitespace character
starts a comment. -/
def isCommentLine (l : List Char) : Bool :=
  (l.dropWhile pyIsSpace).head? = some '#'

/-!
## Risk Scanner (`SafeScriptExecutor.RISKY_PATTERNS` / `validate_script_imports`)

Each entry of `RISKY_PATTERNS` has the shape
`boundary  literal (\s* literal)*  [boundary]`, where the leading boundary
(`\b` before a word-initial literal, or `(?<!\w)`) requires the previous
character to be a non-word character, and the optional trailing `\b` (after a
word-final literal) requires the next character to be a non-word character.
Because every literal segment starts with a non-space character, the `\s*`
separators match deterministically (maximal whitespace run), so the matcher
below needs no backtracking.
-/

/-- What a pattern requires after its last literal segment. -/
inductive PostCond where
  | wordEnd   -- a trailing `\b` after a word character: next char must be non-word
  | nothing   -- no trailing requirement
  deriving DecidableEq, Repr

/-- A risky pattern: literal segments separated by `\s*`, preceded by a
non-word-character boundary, optionally followed by a word boundary. -/
structure Pat where
  parts : List (List Char)
  post : PostCond
  deriving Repr

/-- Match the literal segments separated by greedy `\s*`; return the remaining
text after the final segment, or `none`. -/
def matchParts : List (List Char) → List Char → Option (List Char)
  | [], cs => some cs
  | p :: ps, cs =>
    if p.isPrefixOf cs then
      let rest := cs.drop p.length
      match ps with
      | [] => some rest
      | _ :: _ => matchParts ps (rest.dropWhile pyIsSpace)
    else none

/-- The trailing condition of a pattern, checked on the text after the match. -/
def postOk : PostCond → List Char → Bool
  | .wordEnd, rest => !wordOpt rest.head?
  | .nothing, _ => true

/-- Try to match a pattern at the current position (`prev` is the character
just before the position, `none` at the start of the text). -/
def matchPatAt (pat : Pat) (prev : Option Char) (cs : List Char) : Bool :=
  !wordOpt prev &&
    match matchParts pat.parts cs with
    | some rest => postOk pat.post rest
    | none => false

/-- `re.search`: try the pattern at every position, left to right. -/
def searchPatFrom (pat : Pat) : Option Char → List Char → Bool
  | prev, [] => matchPatAt pat prev []
  | prev, c :: cs => matchPatAt pat prev (c :: cs) || searchPatFrom pat (some c) cs

/-- `re.search(pattern, code)` over a string. -/
def reSearch (pat : Pat) (code : List Char) : Bool :=
  searchPatFrom pat none code

/-- `SafeScriptExecutor.RISKY_PATTERNS`: the fixed pattern list with its labels,
in source order. -/
def RISKY_PATTERNS : List (Pat × String) :=
  [ (⟨["subprocess".data, ".".data, "call".data], .wordEnd⟩, "subprocess.call"),
    (⟨["subprocess".data, ".".data, "run".data], .wordEnd⟩, "subprocess.run"),
    (⟨["subprocess".data, ".".data, "Popen".data], .wordEnd⟩, "subprocess.Popen"),
    (⟨["os".data, ".".data, "system".data, "(".data], .nothing⟩, "os.system()"),
    (⟨["eval".data, "(".data], .nothing⟩, "eval()"),
    (⟨["exec".data, "(".data], .nothing⟩, "exec()"),
    (⟨["__import__".data, "(".data], .nothing⟩, "__import__()") ]

/-- The warning string built for one matched pattern label. -/
def warnText (label : String) : String :=
  "⚠️ Potentially risky operation detected: " ++ label

/-- The list comprehension of `validate_script_imports`, applied to the
already-joined non-comment text: one warning per matching pattern, in
pattern-list order. -/
def scanJoined (code : List Char) : List String :=
  (RISKY_PATTERNS.filter (fun pr => reSearch pr.1 code)).map (fun pr => warnText pr.2)

/-- `SafeScriptExecutor.validate_script_imports`: drop comment lines, rejoin
with newlines, and scan the result. -/
def validate_script_imports (script_content : String) : List String :=
  scanJoined (pyJoinNl ((pySplit script_content.data).filter (fun l => !isCommentLine l)))

/-!
## Metadata Parser (`ScriptManager._parse_docstring_field` / `get_script_info`)

`_parse_docstring_field` searches `content` for the regex
`(?:"""|''')\s*[\s\S]*?FIELD:\s*([^\n]+)` with `re.IGNORECASE`.  Since
`[\s\S]*?` absorbs any text, a match exists iff some triple-quote delimiter is
followed (anywhere later) by a completed `FIELD: value` occurrence; the
leftmost match starts at the *first* delimiter in the text and, by laziness,
captures the *earliest* completed occurrence after it.  `\s*` after the colon
is greedy but backtracks so that `([^\n]+)` can still take at least one
non-newline character.
-/

/-- Does the text start with a triple-quote delimiter (`"""` or `'''`)? -/
def isDelim3 : List Char → Bool
  | '"' :: '"' :: '"' :: _ => true
  | '\'' :: '\'' :: '\'' :: _ => true
  | _ => false

/-- The text just after the first triple-quote delimiter, if any. -/
def afterFirstDelim : List Char → Option (List Char)
  | [] => none
  | c :: cs => if isDelim3 (c :: cs) then some (cs.drop 2) else afterFirstDelim cs

/-- Case-insensitive literal prefix match (`re.IGNORECASE`); returns the
remainder after the prefix. -/
def ciMatch : List Char → List Char → Option (List Char)
  | [], cs => some cs
  | _ :: _, [] => none
  | p :: ps, c :: cs => if p.toLower = c.toLower then ciMatch ps cs else none

/-- `\s*([^\n]+)` after the colon: greedy whitespace with backtracking
(`ws` holds the consumed whitespace, nearest character first), then a maximal
nonempty run of non-newline characters. -/
def capTry : List Char → List Char → Option (List Char)
  | ws, rest =>
    (match rest.head? with
     | some c => if c = '\n' then none else some (rest.takeWhile (fun x => x ≠ '\n'))
     | none => none)
    <|>
    (match ws with
     | [] => none
     | c :: ws' => capTry ws' (c :: rest))

/-- Capture group of `:\s*([^\n]+)`, applied to the text after the colon. -/
def capAfterColon (cs : List Char) : Option (List Char) :=
  let w := cs.takeWhile pyIsSpace
  capTry w.reverse (cs.drop w.length)

/-- Earliest completed `FIELD:` occurrence (case-insensitive), with its
captured value; scans positions left to right. -/
def findFieldFrom (field : List Char) : List Char → Option (List Char)
  | [] => none
  | c :: cs =>
    (match ciMatch field (c :: cs) with
     | some rest =>
       match rest with
       | ':' :: rest' => capAfterColon rest'
       | _ => none
     | none => none)
    <|> findFieldFrom field cs

/-- Python `value.strip()`. -/
def pyStrip (cs : List Char) : List Char :=
  ((cs.dropWhile pyIsSpace).reverse.dropWhile pyIsSpace).reverse

/-- The raw captured group of `ScriptManager._parse_docstring_field`
(`match.group(1)`), or `none` when the regex does not match. -/
def parseFieldRaw (content : String) (field : String) : Option (List Char) :=
  match afterFirstDelim content.data with
  | none => none
  | some rest => findFieldFrom field.data rest

/-- `_parse_docstring_field(content, field, as_bool=True)`:
`match.group(1).strip().lower() in ('true', 'yes', '1')`, `False` on no match. -/
def parseDocstringFieldBool (content : String) (field : String) : Bool :=
  match parseFieldRaw content field with
  | none => false
  | some cap =>
    let t := String.mk ((pyStrip cap).map Char.toLower)
    t = "true" || t = "yes" || t = "1"

/-- `_parse_docstring_field(content, field)`:
`match.group(1).strip().replace('"', '').replace("'", "")`, `None` on no match. -/
def parseDocstringFieldText (content : String) (field : String) : Option String :=
  (parseFieldRaw content field).map
    (fun cap => String.mk ((pyStrip cap).filter (fun c => c ≠ '"' && c ≠ '\'')))

/-- `os.path.basename` (POSIX): the part after the last `/`. -/
def pyBasename (p : String) : String :=
  String.mk ((p.data.reverse.takeWhile (fun c => c ≠ '/')).reverse)

/-- `os.path.dirname` (POSIX): text before the last `/`, with trailing slashes
stripped unless the result is all slashes. -/
def pyDirname (p : String) : String :=
  let cs := p.data
  let afterLen := (cs.reverse.takeWhile (fun c => c ≠ '/')).length
  if afterLen = cs.length then ""
  else
    let head := cs.take (cs.length - afterLen)
    if head.all (fun c => c = '/') then String.mk head
    else String.mk (head.reverse.dropWhile (fun c => c = '/')).reverse

/-- `os.path.splitext(b)[0]` for a basename: strip the extension after the last
dot, ignoring leading dots. -/
def pySplitextBase (b : String) : String :=
  let cs := b.data
  let lead := (cs.takeWhile (fun c => c = '.')).length
  let rest := cs.drop lead
  if rest.contains '.' then
    let extLen := (rest.reverse.takeWhile (fun c => c ≠ '.')).length + 1
    String.mk (cs.take (cs.length - extLen))
  else b

/-- Python `str.title()` (ASCII): uppercase a letter that follows a non-letter,
lowercase a letter that follows a letter. -/
def pyTitleGo : Bool → List Char → List Char
  | _, [] => []
  | prevAlpha, c :: cs =>
    if c.isAlpha then (if prevAlpha then c.toLower else c.toUpper) :: pyTitleGo true cs
    else c :: pyTitleGo false cs

def pyTitle (s : String) : String :=
  String.mk (pyTitleGo false s.data)

/-- One entry of the Registry's catalog (`get_script_info`'s result dict). -/
structure ScriptInfo where
  name : String
  path : String
  description : String
  toolbar : Bool
  toolbar_label : Option String
  validated : Bool
  deriving Repr, DecidableEq

/-- The description lookup loop of `get_script_info`: try the three field
spellings in order, keep the first truthy (non-`None`, non-empty) value, else
the `"PyQGIS Script"` fallback. -/
def descriptionOf (content : String) : String :=
  let keys := ["Description", "Descrição", "Descripción"]
  match (keys.map (parseDocstringFieldText content)).find?
      (fun r => match r with | some v => v ≠ "" | none => false) with
  | some (some v) => v
  | _ => "PyQGIS Script"

/-- The record-building part of `ScriptManager.get_script_info` (lines 877-899),
applied to already-read, syntax-valid content. -/
def get_script_info_fields (script_path : String) (content : String) : ScriptInfo :=
  let show_in_toolbar := parseDocstringFieldBool content "Toolbar"
  { name := pyTitle ((pySplitextBase (pyBasename script_path)).replace "_" " ")
    path := script_path
    description := descriptionOf content
    toolbar := show_in_toolbar
    toolbar_label := if show_in_toolbar then parseDocstringFieldText content "ToolbarLabel" else none
    validated := parseDocstringFieldBool content "Validated" }

/-!
## Execution Namespace Builder (`SafeScriptExecutor.prepare_safe_namespace`)

The Python namespace maps names to host objects; strings and numbers appear
literally, everything else is an opaque capability handle identified by its
qualified name.  `QT_VERSION` is the module-level constant derived from the
host's Qt version, kept as a parameter here.
-/

/-- A value of the execution namespace. -/
inductive NsVal where
  | str (s : String)
  | num (n : Nat)
  | handle (qualified : String)
  deriving Repr, DecidableEq

/-- `SafeScriptExecutor.prepare_safe_namespace(script_path)`: the allowlisted
namespace dictionary, in source order. -/
def prepare_safe_namespace (qtVersion : Nat) (script_path : String) :
    List (String × NsVal) :=
  [ ("__name__", .str "__main__"), ("__file__", .str script_path),
    ("QT_VERSION", .num qtVersion),
    ("QgsProject", .handle "qgis.core.QgsProject"),
    ("QgsVectorLayer", .handle "qgis.core.QgsVectorLayer"),
    ("QgsRasterLayer", .handle "qgis.core.QgsRasterLayer"),
    ("QgsFeature", .handle "qgis.core.QgsFeature"),
    ("QgsGeometry", .handle "qgis.core.QgsGeometry"),
    ("QgsMessageLog", .handle "qgis.core.QgsMessageLog"),
    ("Qgis", .handle "qgis.core.Qgis"),
    ("QgsCoordinateReferenceSystem", .handle "qgis.core.QgsCoordinateReferenceSystem"),
    ("QgsCoordinateTransform", .handle "qgis.core.QgsCoordinateTransform"),
    ("QgsUnitTypes", .handle "qgis.core.QgsUnitTypes"),
    ("QgsWkbTypes", .handle "qgis.core.QgsWkbTypes"),
    ("QgsMapCanvas", .handle "qgis.gui.QgsMapCanvas"),
    ("QgsMapTool", .handle "qgis.gui.QgsMapTool"),
    ("QgsMapLayerProxyModel", .handle "qgis.core.QgsMapLayerProxyModel"),
    ("QgsProcessingContext", .handle "qgis.core.QgsProcessingContext"),
    ("iface", .handle "qgis.utils.iface"),
    ("QMessageBox", .handle "qgis.PyQt.QtWidgets.QMessageBox"),
    ("QInputDialog", .handle "qgis.PyQt.QtWidgets.QInputDialog"),
    ("QFileDialog", .handle "qgis.PyQt.QtWidgets.QFileDialog"),
    ("QProgressBar", .handle "qgis.PyQt.QtWidgets.QProgressBar"),
    ("QComboBox", .handle "qgis.PyQt.QtWidgets.QComboBox"),
    ("QCheckBox", .handle "qgis.PyQt.QtWidgets.QCheckBox"),
    ("Qt", .handle "qgis.PyQt.QtCore.Qt"),
    ("QTimer", .handle "qgis.PyQt.QtCore.QTimer"),
    ("QThread", .handle "qgis.PyQt.QtCore.QThread"),
    ("pyqtSignal", .handle "qgis.PyQt.QtCore.pyqtSignal"),
    ("QIcon", .handle "qgis.PyQt.QtGui.QIcon"),
    ("QPixmap", .handle "qgis.PyQt.QtGui.QPixmap"),
    ("QColor", .handle "qgis.PyQt.QtGui.QColor"),
    ("json", .handle "json"), ("math", .handle "math"),
    ("datetime", .handle "datetime"), ("re", .handle "re") ]

/-!
## Script Runner (`ScriptManager.execute_script`)

The Runner is modelled as a state transition.  The state carries the pieces of
process state the claims talk about: the Registry catalog (`self.scripts`),
the acknowledgement set (`self._validated_acknowledged`), the module search
path (`sys.path`), and the executor's two capture buffers.  Executing the
script body (`exec(script_content, script_globals)`) is arbitrary code, so it
is an oracle of the environment: it yields the text the body writes to the
current stdout/stderr, an arbitrary mutation of `sys.path`, and an outcome —
normal return, or an exception that is either `Exception`-derived (`ordinary`,
caught by `except Exception`) or `BaseException`-only (`baseOnly`, e.g.
`SystemExit`, *not* caught by `except Exception`).
-/

/-- Python exception classes as seen by `except Exception`. -/
inductive ExcKind where
  | ordinary  -- subclass of Exception: caught by `except Exception`
  | baseOnly  -- BaseException-only (SystemExit, KeyboardInterrupt): not caught
  deriving Repr, DecidableEq

/-- An exception raised during a run: class, `str(e)`, `traceback.format_exc()`. -/
structure PyExc where
  kind : ExcKind
  msg : String
  tb : String
  deriving Repr, DecidableEq

/-- Result of executing the script body. -/
inductive Outcome where
  | ok
  | raised (e : PyExc)
  deriving Repr, DecidableEq

/-- Observable behavior of `exec(script_content, script_globals)`:
what the body writes to the current stdout/stderr streams, how it mutates
`sys.path`, and how it finishes. -/
structure ScriptRun where
  out : String
  err : String
  mutatePath : List String → List String
  outcome : Outcome

/-- The process/plugin state the Runner touches. -/
structure MState where
  scripts : List (String × ScriptInfo)  -- `self.scripts`: filename → record
  acknowledged : List String            -- `self._validated_acknowledged` (a set of paths)
  sysPath : List String                 -- `sys.path`
  outputBuffer : String                 -- `self.executor.output_buffer`
  errorBuffer : String                  -- `self.executor.error_buffer`

/-- The host environment of one `execute_script` call: the filesystem
(`open().read()`, failing with the `OSError`'s message and traceback), the
Python interpreter for the body, the user's reply to `QMessageBox.question`
(`true` = Yes), and the host Qt version. -/
structure ExecEnv where
  qtVersion : Nat
  fs : String → Except (String × String) String
  interp : String → List (String × NsVal) → ScriptRun
  answer : Bool

/-- What `execute_script` returns: the 4-tuple in capture mode, the bare
boolean otherwise. -/
inductive RunResult where
  | captured (success : Bool) (out : String) (err : String) (warnings : List String)
  | plain (success : Bool)
  deriving Repr, DecidableEq

/-- One `execute_script` call's effect: the new state, the returned value (or
the escaping exception, for a `BaseException`-only raise), and whether the
confirmation prompt was shown. -/
structure ExecOutcome where
  state : MState
  result : Except PyExc RunResult
  prompted : Bool

/-- `detailed_error` as built in the exception handler (lines 1147-1149):
`f"❌ {tr('error_executing')} {script_name}: {str(e)}\n\nDetails:\n{traceback.format_exc()}"`
with the English string table. -/
def detailedError (script_name : String) (msg : String) (tb : String) : String :=
  "❌ Error executing script " ++ script_name ++ ": " ++ msg ++ "\n\nDetails:\n" ++ tb

/-- `script_info.get('validated', False)` after
`script_info = self.scripts.get(os.path.basename(script_path), {})`. -/
def isValidatedIn (st : MState) (script_path : String) : Bool :=
  ((st.scripts.lookup (pyBasename script_path)).map ScriptInfo.validated).getD false

/-- The body of the `try` from line 1114 on: namespace build, `sys.path`
insertion, exec (optionally under output capture), and the `finally` that
rebinds `sys.path`; a raised exception then reaches `except Exception`
(`ordinary`) or escapes (`baseOnly`). -/
def runBody (env : ExecEnv) (st : MState) (script_content script_path : String)
    (capture : Bool) (warnings : List String) (prompted : Bool) : ExecOutcome :=
  let script_globals := prepare_safe_namespace env.qtVersion script_path
  let original_path := st.sysPath
  let script_dir := pyDirname script_path
  let duringPath := if script_dir ∈ st.sysPath then st.sysPath else script_dir :: st.sysPath
  let run := env.interp script_content script_globals
  -- the body may itself rebind or mutate sys.path; the `finally` clause
  -- rebinds sys.path to the copy saved before the insertion, on every exit
  let _pathAfterExec := run.mutatePath duringPath
  match run.outcome with
  | .ok =>
    if capture then
      -- `with capture_output()`: the body's writes land in the buffers;
      -- `get_captured_output()` returns the buffered text and resets both
      { state := { st with sysPath := original_path, outputBuffer := "", errorBuffer := "" },
        result := .ok (.captured true (st.outputBuffer ++ run.out) (st.errorBuffer ++ run.err) warnings),
        prompted }
    else
      { state := { st with sysPath := original_path },
        result := .ok (.plain true), prompted }
  | .raised e =>
    -- the context manager restores the streams and the `finally` restores
    -- sys.path while the exception unwinds; `get_captured_output()` is NOT
    -- reached, so the buffers keep the text the body wrote
    let st' :=
      if capture then
        { st with sysPath := original_path,
                  outputBuffer := st.outputBuffer ++ run.out,
                  errorBuffer := st.errorBuffer ++ run.err }
      else { st with sysPath := original_path }
    match e.kind with
    | .ordinary =>
      -- `except Exception`: captured_errors := detailed_error; captured_output
      -- keeps its initial value ""
      let d := detailedError (pyBasename script_path) e.msg e.tb
      { state := st',
        result := .ok (if capture then .captured false "" d warnings else .plain false),
        prompted }
    | .baseOnly =>
      -- SystemExit-class: not matched by `except Exception`, escapes the Runner
      { state := st', result := .error e, prompted }

/-- `ScriptManager.execute_script(script_path, capture_output)` (lines
1082-1163), as a state transition. -/
def execute_script (env : ExecEnv) (st : MState) (script_path : String)
    (capture_output : Bool) : ExecOutcome :=
  -- success = False; captured_output = ""; captured_errors = ""; warnings = []
  match env.fs script_path with
  | .error e =>
    -- `open()` raised an OSError — an Exception — caught by the outer handler
    -- with the initial locals still in place
    let d := detailedError (pyBasename script_path) e.1 e.2
    { state := st,
      result := .ok (if capture_output then .captured false "" d [] else .plain false),
      prompted := false }
  | .ok script_content =>
    let validation_warnings := validate_script_imports script_content
    if validation_warnings ≠ [] ∧ capture_output = false then
      let is_validated := isValidatedIn st script_path
      if ¬is_validated = true ∨ script_path ∉ st.acknowledged then
        -- show the warnings and ask whether to continue
        if env.answer = false then
          { state := st, result := .ok (.plain false), prompted := true }
        else
          let st' :=
            if is_validated then
              { st with acknowledged := script_path :: st.acknowledged }
            else st
          runBody env st' script_content script_path capture_output validation_warnings true
      else
        runBody env st script_content script_path capture_output validation_warnings false
    else
      runBody env st script_content script_path capture_output validation_warnings false

/-- The operations that run against the plugin state during one process
lifetime: script executions and catalog reloads (`load_scripts` clears and
rebuilds `self.scripts` and touches nothing else of this state). -/
inductive Op where
  | runScript (env : ExecEnv) (path : String) (capture : Bool)
  | reloadScripts (newCatalog : List (String × ScriptInfo))

def applyOp (st : MState) : Op → MState
  | .runScript env p c => (execute_script env st p c).state
  | .reloadScripts cat => { st with scripts := cat }

def applyOps (st : MState) (ops : List Op) : MState :=
  ops.foldl applyOp st

/-!
## Theorems
-/

/-- The complete warning list, in the fixed pattern-priority order. -/
def allRiskWarnings : List String :=
  RISKY_PATTERNS.map (fun pr => warnText pr.2)

/-- C7: For every script text, the Risk Scanner returns at most one warning per
distinct risky pattern regardless of how many times that pattern occurs in the
source, and the warnings appear in the fixed pattern-priority order of the
pattern list, not in source-line order.  (The result is a duplicate-free
sublist of the fixed warning list.) -/
theorem scanner_one_warning_per_pattern_in_fixed_order (content : String) :
    (validate_script_imports content).Sublist allRiskWarnings ∧
    (validate_script_imports content).Nodup := by
  have hsub : (validate_script_imports content).Sublist allRiskWarnings :=
    List.Sublist.map _ (List.filter_sublist _)
  exact ⟨hsub, hsub.nodup (by decide)⟩

/-- C10: For every script path, the execution namespace maps `__name__` to
`__main__` and `__file__` to the script's own path, so a script's
`if __name__ == "__main__":` guard fires when run by the manager. -/
theorem namespace_maps_main_and_file (qt : Nat) (p : String) :
    (prepare_safe_namespace qt p).lookup "__name__" = some (NsVal.str "__main__") ∧
    (prepare_safe_namespace qt p).lookup "__file__" = some (NsVal.str p) := by
  constructor <;> rfl

/-- `runBody` leaves `sys.path` as it found it (the `finally` clause). -/
theorem runBody_sysPath (env : ExecEnv) (st : MState) (content p : String)
    (c : Bool) (w : List String) (pr : Bool) :
    (runBody env st content p c w pr).state.sysPath = st.sysPath := by
  unfold runBody
  dsimp only
  repeat' split
  all_goals rfl

/-- `runBody` reports the prompt flag it was given. -/
theorem runBody_prompted (env : ExecEnv) (st : MState) (content p : String)
    (c : Bool) (w : List String) (pr : Bool) :
    (runBody env st content p c w pr).prompted = pr := by
  unfold runBody
  dsimp only
  repeat' split
  all_goals rfl

/-- `runBody` does not touch the acknowledgement set. -/
theorem runBody_ack (env : ExecEnv) (st : MState) (content p : String)
    (c : Bool) (w : List String) (pr : Bool) :
    (runBody env st content p c w pr).state.acknowledged = st.acknowledged := by
  unfold runBody
  dsimp only
  repeat' split
  all_goals rfl

/-- `runBody` does not touch the Registry catalog. -/
theorem runBody_scripts (env : ExecEnv) (st : MState) (content p : String)
    (c : Bool) (w : List String) (pr : Bool) :
    (runBody env st content p c w pr).state.scripts = st.scripts := by
  unfold runBody
  dsimp only
  repeat' split
  all_goals rfl

/-- C8: For every invocation of `run(path, capture)` and every exit path
(successful completion, exception during execution — contained or escaping —
or user abort at the confirmation prompt), `sys.path` after the call equals
its value before it; the temporary addition of the script's directory never
leaks past the single run. -/
theorem run_restores_sys_path (env : ExecEnv) (st : MState) (p : String) (c : Bool) :
    (execute_script env st p c).state.sysPath = st.sysPath := by
  unfold execute_script
  dsimp only
  repeat' split
  all_goals first | rfl | exact runBody_sysPath ..

/-- The diagnostic built by the exception handler is never the empty string. -/
theorem detailedError_ne_empty (n m tb : String) : detailedError n m tb ≠ "" := by
  intro h
  have hlen := congrArg String.length h
  simp only [detailedError, String.length_append] at hlen
  have h1 : ("❌ Error executing script " : String).length = 25 := by decide
  have h2 : (": " : String).length = 2 := by decide
  have h3 : ("\n\nDetails:\n" : String).length = 11 := by decide
  have h4 : ("" : String).length = 0 := by decide
  omega

/-- C9: For every path whose file cannot be read, `run(path, capture=True)`
does not raise; it returns `success=False` with empty stdout, a non-empty
diagnostic in the stderr channel, and an empty warning list, and neither the
registry catalog nor the acknowledgement set is modified. -/
theorem unreadable_file_contained (env : ExecEnv) (st : MState) (p m tb : String)
    (h : env.fs p = .error (m, tb)) :
    (execute_script env st p true).result =
      .ok (.captured false "" (detailedError (pyBasename p) m tb) []) ∧
    detailedError (pyBasename p) m tb ≠ "" ∧
    (execute_script env st p true).state.scripts = st.scripts ∧
    (execute_script env st p true).state.acknowledged = st.acknowledged := by
  unfold execute_script
  rw [h]
  exact ⟨rfl, detailedError_ne_empty (pyBasename p) m tb, rfl, rfl⟩

/-- Does the body's outcome escape `except Exception` (a `BaseException`-only
class such as `SystemExit`)? -/
def ScriptRun.isBaseEscape (r : ScriptRun) : Bool :=
  match r.outcome with
  | .raised e => match e.kind with | .baseOnly => true | .ordinary => false
  | .ok => false

/-- If the body does not raise a `BaseException`-only exception, `runBody`
returns a value (nothing escapes `except Exception`). -/
theorem runBody_isOk (env : ExecEnv) (st : MState) (content p : String) (c : Bool)
    (w : List String) (pr : Bool)
    (h : (env.interp content (prepare_safe_namespace env.qtVersion p)).isBaseEscape = false) :
    ∃ r, (runBody env st content p c w pr).result = Except.ok r := by
  unfold runBody
  dsimp only
  split
  · split
    · exact ⟨_, rfl⟩
    · exact ⟨_, rfl⟩
  · rename_i e heq
    split
    · exact ⟨_, rfl⟩
    · rename_i hk
      simp [ScriptRun.isBaseEscape, heq, hk] at h

/-- C2 (amended): every `Exception`-derived exception raised while executing
the script body (and every file-read error) is caught by the Runner, which
returns a result to its caller; only `BaseException`-only exits such as
`SystemExit` escape `except Exception`. -/
theorem runner_contains_exceptions (env : ExecEnv) (st : MState) (p : String) (c : Bool)
    (h : ∀ content ns, (env.interp content ns).isBaseEscape = false) :
    ∃ r, (execute_script env st p c).result = Except.ok r := by
  unfold execute_script
  dsimp only
  repeat' split
  all_goals first
    | exact ⟨_, rfl⟩
    | exact runBody_isOk env _ _ p c _ _ (h _ _)

/-- The empty plugin state: fresh Registry, empty acknowledgement set, empty
`sys.path`, empty capture buffers. -/
def st0 : MState := ⟨[], [], [], "", ""⟩

/-- A host environment whose script raises `SystemExit` (`raise SystemExit(0)`):
the body writes nothing and finishes with a `BaseException`-only raise. -/
def sysExitEnv : ExecEnv where
  qtVersion := 5
  fs := fun _ => .ok "raise SystemExit(0)\n"
  interp := fun _ _ =>
    { out := "", err := "", mutatePath := id,
      outcome := .raised ⟨.baseOnly, "0", "Traceback (most recent call last):\nSystemExit: 0\n"⟩ }
  answer := true

/-- C2 (counterexample): a `SystemExit` raised by the script body is *not*
caught by `except Exception` and propagates out of
`run("/scripts/quit.py", capture=True)`, so the claim's "including
SystemExit-class exits ... no exception propagates" is false on the code. -/
theorem runner_systemexit_escapes_cex :
    (execute_script sysExitEnv st0 "/scripts/quit.py" true).result =
      Except.error ⟨.baseOnly, "0", "Traceback (most recent call last):\nSystemExit: 0\n"⟩ := by
  rfl

/-- The script body of end-to-end scenario C: prints `"before"`, then raises
an uncaught (ordinary) exception. -/
def beforeRaiseTb : String :=
  "Traceback (most recent call last):\nValueError: boom\n"

def beforeRaiseEnv : ExecEnv where
  qtVersion := 5
  fs := fun _ => .ok "print(\"before\")\nraise ValueError(\"boom\")\n"
  interp := fun _ _ =>
    { out := "before\n", err := "", mutatePath := id,
      outcome := .raised ⟨.ordinary, "boom", beforeRaiseTb⟩ }
  answer := true

/-- C1 (counterexample): for the scenario-C script (prints `"before"`, then
raises), `run(path, capture=True)` returns stdout `""`, not `"before\n"`:
the exception unwinds past `get_captured_output()`, so the buffered text is
never retrieved. -/
theorem capture_failure_stdout_cex :
    (execute_script beforeRaiseEnv st0 "/scripts/fail.py" true).result =
      Except.ok (.captured false ""
        (detailedError "fail.py" "boom" beforeRaiseTb) []) ∧
    ("" : String) ≠ "before\n" := by
  exact ⟨rfl, by decide⟩

/-- C1 (amended): for every script with no risky patterns whose body raises an
`Exception`-derived exception (whatever it printed first),
`run(path, capture=True)` returns `success=False`, stdout equal to `""` (the
captured text stays in the buffer, unreturned), a non-empty diagnostic trace
in the stderr channel, and an empty warning list. -/
theorem capture_failure_result (env : ExecEnv) (st : MState) (p content m tb : String)
    (run : ScriptRun)
    (hfs : env.fs p = .ok content)
    (hwarn : validate_script_imports content = [])
    (hrun : env.interp content (prepare_safe_namespace env.qtVersion p) = run)
    (hout : run.outcome = .raised ⟨.ordinary, m, tb⟩) :
    (execute_script env st p true).result =
      Except.ok (.captured false "" (detailedError (pyBasename p) m tb) []) ∧
    detailedError (pyBasename p) m tb ≠ "" := by
  refine ⟨?_, detailedError_ne_empty (pyBasename p) m tb⟩
  unfold execute_script
  rw [hfs]
  dsimp only
  rw [if_neg (by simp [hwarn])]
  unfold runBody
  dsimp only
  rw [hwarn, hrun, hout]
  rfl

/-- For an interactive run with a non-empty warning list, the prompt flag is
the negation of "record validated and path already acknowledged". -/
theorem execute_prompted_eq (env : ExecEnv) (st : MState) (p content : String)
    (hfs : env.fs p = .ok content) (hw : validate_script_imports content ≠ []) :
    (execute_script env st p false).prompted =
      !(isValidatedIn st p && decide (p ∈ st.acknowledged)) := by
  unfold execute_script
  rw [hfs]
  dsimp only
  rw [if_pos ⟨hw, rfl⟩]
  by_cases hv : isValidatedIn st p = true
  · by_cases hm : p ∈ st.acknowledged
    · rw [if_neg (by simp [hv, hm])]
      simp [runBody_prompted, hv, hm]
    · rw [if_pos (Or.inr hm)]
      split
      · simp [hv, hm]
      · simp [runBody_prompted, hv, hm]
  · rw [if_pos (Or.inl (by simp [hv]))]
    split
    · simp [hv]
    · simp [runBody_prompted, hv]

/-- C5: For every interactive run (`capture=false`) whose risk scan yields a
non-empty warning list, the confirmation prompt is skipped iff the script's
record has `validated=true` and its path is already acknowledged; a
`validated=false` record always prompts, and a missing record is treated as
not validated (and prompts). -/
theorem prompt_skipped_iff_validated_and_acknowledged (env : ExecEnv) (st : MState)
    (p content : String)
    (hfs : env.fs p = .ok content)
    (hw : validate_script_imports content ≠ []) :
    ((execute_script env st p false).prompted = false ↔
      isValidatedIn st p = true ∧ p ∈ st.acknowledged) ∧
    (st.scripts.lookup (pyBasename p) = none →
      (execute_script env st p false).prompted = true) ∧
    (isValidatedIn st p = false →
      (execute_script env st p false).prompted = true) := by
  have h := execute_prompted_eq env st p content hfs hw
  refine ⟨?_, ?_, ?_⟩
  · rw [h]; simp
  · intro hl; rw [h]; simp [isValidatedIn, hl]
  · intro hv; rw [h]; simp [hv]

/-- One `execute_script` call either leaves the acknowledgement set unchanged,
or pushes exactly the script's path — and then the record was validated, the
mode was interactive, the user answered yes, and the prompt was shown. -/
theorem execute_ack_cases (env : ExecEnv) (st : MState) (p : String) (c : Bool) :
    (execute_script env st p c).state.acknowledged = st.acknowledged ∨
    ((execute_script env st p c).state.acknowledged = p :: st.acknowledged ∧
      isValidatedIn st p = true ∧ c = false ∧ env.answer = true ∧
      (execute_script env st p c).prompted = true) := by
  unfold execute_script
  dsimp only
  split
  · exact Or.inl rfl
  · split
    · rename_i hcond
      split
      · split
        · exact Or.inl rfl
        · rename_i hans
          split
          · rename_i hv
            refine Or.inr ⟨runBody_ack .., hv, hcond.2, ?_, runBody_prompted ..⟩
            simpa using hans
          · exact Or.inl (runBody_ack ..)
      · exact Or.inl (runBody_ack ..)
    · exact Or.inl (runBody_ack ..)

/-- Acknowledgement entries survive every operation (nothing ever removes one). -/
theorem applyOps_ack_mono (ops : List Op) (st : MState) (x : String)
    (hx : x ∈ st.acknowledged) : x ∈ (applyOps st ops).acknowledged := by
  induction ops generalizing st with
  | nil => exact hx
  | cons op rest ih =>
    apply ih
    cases op with
    | reloadScripts cat => exact hx
    | runScript env p c =>
      rcases execute_ack_cases env st p c with h | ⟨h, _⟩ <;>
        simp only [applyOp, h]
      · exact hx
      · exact List.mem_cons_of_mem _ hx

/-- Every acknowledgement entry not present initially was inserted by some
interactive (`capture=false`) run of that exact path, from a state in which its
record was validated, with the prompt shown and answered yes. -/
theorem applyOps_ack_entry (ops : List Op) (st : MState) (x : String)
    (hx : x ∈ (applyOps st ops).acknowledged) :
    x ∈ st.acknowledged ∨
    ∃ pre env, isValidatedIn pre x = true ∧ env.answer = true ∧
      (execute_script env pre x false).prompted = true ∧
      (execute_script env pre x false).state.acknowledged = x :: pre.acknowledged := by
  induction ops generalizing st with
  | nil => exact Or.inl hx
  | cons op rest ih =>
    rcases ih (applyOp st op) hx with hmem | hwit
    · cases op with
      | reloadScripts cat => exact Or.inl hmem
      | runScript env p c =>
        rcases execute_ack_cases env st p c with h | ⟨h, hv, hc, hans, hpr⟩
        · exact Or.inl (by simpa [applyOp, h] using hmem)
        · subst hc
          simp only [applyOp, h, List.mem_cons] at hmem
          rcases hmem with rfl | hmem
          · exact Or.inr ⟨st, env, hv, hans, hpr, h⟩
          · exact Or.inl hmem
    · exact Or.inr hwit

/-- C6: For every sequence of operations, a path enters the acknowledgement
set only via an interactive run of that exact path whose record was validated
and whose warning prompt the user answered yes; no operation removes an entry;
and a capture-mode run never inserts. -/
theorem ack_set_invariant (ops : List Op) (st : MState) :
    (∀ x ∈ st.acknowledged, x ∈ (applyOps st ops).acknowledged) ∧
    (∀ x ∈ (applyOps st ops).acknowledged, x ∈ st.acknowledged ∨
      ∃ pre env, isValidatedIn pre x = true ∧ env.answer = true ∧
        (execute_script env pre x false).prompted = true ∧
        (execute_script env pre x false).state.acknowledged = x :: pre.acknowledged) ∧
    (∀ env q, (execute_script env st q true).state.acknowledged = st.acknowledged) := by
  refine ⟨fun x hx => applyOps_ack_mono ops st x hx,
          fun x hx => applyOps_ack_entry ops st x hx, fun env q => ?_⟩
  rcases execute_ack_cases env st q true with h | ⟨_, _, hc, _⟩
  · exact h
  · cases hc

/-- A script whose *first* docstring declares no fields, followed by code and
a *second* triple-quoted string that declares `Validated: true`. -/
def secondDocstringContent : String :=
  "\"\"\"\nNo fields here.\n\"\"\"\nx = 1\n\"\"\"\nValidated: true\n\"\"\"\n"

/-- The same script truncated right after the first docstring closes (before
the second triple-quoted string). -/
def firstDocstringOnly : String :=
  "\"\"\"\nNo fields here.\n\"\"\"\nx = 1\n"

/-- C3 (counterexample): a `Validated:` field that occurs only *after* the
first docstring closes (inside a second triple-quoted string) flips the
resulting record's `validated` flag to true — the regex
`(?:"""|''')\s*[\s\S]*?Validated:` matches across the first docstring's
closing quotes.  Removing the second string restores `validated = false`. -/
theorem parser_reads_past_first_docstring_cex :
    (get_script_info_fields "/scripts/a.py" secondDocstringContent).validated = true ∧
    (get_script_info_fields "/scripts/a.py" firstDocstringOnly).validated = false := by
  exact ⟨rfl, rfl⟩

/-- C3 (amended): field extraction is keyed to the *first triple-quote
delimiter* of the text, not to the extent of the first docstring: a field
occurring anywhere after that delimiter (even in a second string or in code)
can affect the record, and a text containing no triple-quote delimiter at all
yields all defaults. -/
theorem parser_no_delimiter_gives_defaults (p content : String)
    (h : afterFirstDelim content.data = none) :
    (get_script_info_fields p content).description = "PyQGIS Script" ∧
    (get_script_info_fields p content).toolbar = false ∧
    (get_script_info_fields p content).toolbar_label = none ∧
    (get_script_info_fields p content).validated = false := by
  have hraw : ∀ f, parseFieldRaw content f = none := by
    intro f
    unfold parseFieldRaw
    rw [h]
  have htext : ∀ f, parseDocstringFieldText content f = none := by
    intro f
    unfold parseDocstringFieldText
    rw [hraw]
    rfl
  have hbool : ∀ f, parseDocstringFieldBool content f = false := by
    intro f
    unfold parseDocstringFieldBool
    rw [hraw]
  refine ⟨?_, ?_, ?_, ?_⟩
  · unfold get_script_info_fields descriptionOf
    simp [htext]
  · unfold get_script_info_fields
    simp [hbool]
  · unfold get_script_info_fields
    simp [hbool]
  · unfold get_script_info_fields
    simp [hbool]

/-- A newline-free text splits to the single line it is. -/
theorem pySplit_no_newline (l : List Char) (h : '\n' ∉ l) : pySplit l = [l] := by
  induction l with
  | nil => rfl
  | cons c cs ih =>
    have hc : ¬(c = '\n') := fun hh => h (hh ▸ List.mem_cons_self c cs)
    have hcs : '\n' ∉ cs := fun hh => h (List.mem_cons_of_mem c hh)
    unfold pySplit
    rw [if_neg hc, ih hcs]

/-- Splitting peels off a leading newline-free line. -/
theorem pySplit_append_newline (l t : List Char) (h : '\n' ∉ l) :
    pySplit (l ++ '\n' :: t) = l :: pySplit t := by
  induction l with
  | nil =>
    show pySplit ('\n' :: t) = [] :: pySplit t
    conv_lhs => unfold pySplit
    rw [if_pos rfl]
  | cons c cs ih =>
    have hc : ¬(c = '\n') := fun hh => h (hh ▸ List.mem_cons_self c cs)
    have hcs : '\n' ∉ cs := fun hh => h (List.mem_cons_of_mem c hh)
    show pySplit (c :: (cs ++ '\n' :: t)) = (c :: cs) :: pySplit t
    conv_lhs => unfold pySplit
    rw [if_neg hc, ih hcs]

/-- `split('\n')` inverts `'\n'.join` on a nonempty list of newline-free lines. -/
theorem pySplit_pyJoinNl (ls : List (List Char)) (hne : ls ≠ [])
    (h : ∀ l ∈ ls, '\n' ∉ l) : pySplit (pyJoinNl ls) = ls := by
  induction ls with
  | nil => exact absurd rfl hne
  | cons l rest ih =>
    cases rest with
    | nil => exact pySplit_no_newline l (h l (List.mem_cons_self l []))
    | cons l2 rest2 =>
      have hj : pyJoinNl (l :: l2 :: rest2) = l ++ '\n' :: pyJoinNl (l2 :: rest2) := rfl
      rw [hj, pySplit_append_newline _ _ (h l (List.mem_cons_self l _)),
        ih (by simp) (fun m hm => h m (List.mem_cons_of_mem _ hm))]

/-- C4 (amended): the Risk Scanner excludes exactly the comment lines (first
non-whitespace character `#`): its result is unchanged when the comment lines
are deleted from the text, and a text consisting only of comment lines yields
no warnings at all.  (Occurrences inside docstrings on non-comment lines are
*not* excluded — see the counterexample.) -/
theorem scanner_excludes_exactly_comment_lines (ls : List (List Char))
    (hne : ls ≠ []) (hnl : ∀ l ∈ ls, '\n' ∉ l) :
    validate_script_imports (String.mk (pyJoinNl ls)) =
      validate_script_imports
        (String.mk (pyJoinNl (ls.filter (fun l => !isCommentLine l)))) ∧
    ((∀ l ∈ ls, isCommentLine l = true) →
      validate_script_imports (String.mk (pyJoinNl ls)) = []) := by
  have hdata : ∀ cs : List Char, (String.mk cs).data = cs := fun _ => rfl
  have hL : validate_script_imports (String.mk (pyJoinNl ls)) =
      scanJoined (pyJoinNl (ls.filter (fun l => !isCommentLine l))) := by
    unfold validate_script_imports
    rw [hdata, pySplit_pyJoinNl ls hne hnl]
  constructor
  · rw [hL]
    unfold validate_script_imports
    rw [hdata]
    rcases hfl : ls.filter (fun l => !isCommentLine l) with _ | ⟨f, fs⟩
    · rfl
    · rw [← hfl,
        pySplit_pyJoinNl _ (by rw [hfl]; exact List.cons_ne_nil f fs)
          (fun m hm => hnl m (List.mem_of_mem_filter hm)),
        List.filter_eq_self.mpr (fun m hm => (List.mem_filter.mp hm).2)]
  · intro hall
    rw [hL, List.filter_eq_nil_iff.mpr (fun m hm => by simp [hall m hm])]
    rfl

/-- A script whose only risky-pattern occurrence sits inside a triple-quoted
docstring, on a line that is not a comment line. -/
def docstringRiskContent : String :=
  "\"\"\"\nExample:\n    subprocess.call(cmd)\n\"\"\"\nprint(\"hi\")\n"

/-- C4 (counterexample): a `subprocess.call(...)` occurrence inside a
docstring example, on a line whose first non-whitespace character is not `#`,
*does* produce a warning — none of the file's lines is a comment line, yet the
scan is non-empty, refuting the claim's "only inside a docstring example"
disjunct. -/
theorem scanner_docstring_not_excluded_cex :
    validate_script_imports docstringRiskContent = [warnText "subprocess.call"] ∧
    ∀ l ∈ pySplit docstringRiskContent.data, isCommentLine l = false := by
  exact ⟨rfl, by decide⟩

/-!
## Witnesses: concrete instantiations of the theorems with hypotheses
-/

/-- A host environment whose file read fails (`FileNotFoundError`). -/
def unreadableEnv : ExecEnv where
  qtVersion := 5
  fs := fun _ => .error ("No such file or directory",
    "Traceback (most recent call last):\nFileNotFoundError\n")
  interp := fun _ _ => { out := "", err := "", mutatePath := id, outcome := .ok }
  answer := true

theorem unreadable_file_contained_witness :
    (execute_script unreadableEnv st0 "/scripts/missing.py" true).result =
      Except.ok (RunResult.captured false ""
        (detailedError (pyBasename "/scripts/missing.py") "No such file or directory"
          "Traceback (most recent call last):\nFileNotFoundError\n") []) ∧
    detailedError (pyBasename "/scripts/missing.py") "No such file or directory"
      "Traceback (most recent call last):\nFileNotFoundError\n" ≠ "" ∧
    (execute_script unreadableEnv st0 "/scripts/missing.py" true).state.scripts = st0.scripts ∧
    (execute_script unreadableEnv st0 "/scripts/missing.py" true).state.acknowledged =
      st0.acknowledged :=
  unreadable_file_contained unreadableEnv st0 "/scripts/missing.py"
    "No such file or directory" "Traceback (most recent call last):\nFileNotFoundError\n" rfl

/-- A host environment whose script completes normally. -/
def okRunEnv : ExecEnv where
  qtVersion := 6
  fs := fun _ => .ok "x = 1\n"
  interp := fun _ _ => { out := "", err := "", mutatePath := id, outcome := .ok }
  answer := true

theorem runner_contains_exceptions_witness :
    ∃ r, (execute_script okRunEnv st0 "/scripts/ok.py" true).result = Except.ok r :=
  runner_contains_exceptions okRunEnv st0 "/scripts/ok.py" true (fun _ _ => rfl)

theorem capture_failure_result_witness :
    (execute_script beforeRaiseEnv st0 "/scripts/fail.py" true).result =
      Except.ok (RunResult.captured false ""
        (detailedError (pyBasename "/scripts/fail.py") "boom" beforeRaiseTb) []) ∧
    detailedError (pyBasename "/scripts/fail.py") "boom" beforeRaiseTb ≠ "" :=
  capture_failure_result beforeRaiseEnv st0 "/scripts/fail.py"
    "print(\"before\")\nraise ValueError(\"boom\")\n" "boom" beforeRaiseTb
    (beforeRaiseEnv.interp "print(\"before\")\nraise ValueError(\"boom\")\n"
      (prepare_safe_namespace 5 "/scripts/fail.py"))
    rfl (by decide) rfl rfl

/-- A host environment whose script contains a risky call (`os.system`) and
whose user declines the prompt. -/
def riskyEnv : ExecEnv where
  qtVersion := 5
  fs := fun _ => .ok "import os\nos.system(\"ls\")\n"
  interp := fun _ _ => { out := "", err := "", mutatePath := id, outcome := .ok }
  answer := false

theorem prompt_skipped_iff_witness :
    ((execute_script riskyEnv st0 "/scripts/risky.py" false).prompted = false ↔
      isValidatedIn st0 "/scripts/risky.py" = true ∧
        "/scripts/risky.py" ∈ st0.acknowledged) ∧
    (st0.scripts.lookup (pyBasename "/scripts/risky.py") = none →
      (execute_script riskyEnv st0 "/scripts/risky.py" false).prompted = true) ∧
    (isValidatedIn st0 "/scripts/risky.py" = false →
      (execute_script riskyEnv st0 "/scripts/risky.py" false).prompted = true) :=
  prompt_skipped_iff_validated_and_acknowledged riskyEnv st0 "/scripts/risky.py"
    "import os\nos.system(\"ls\")\n" rfl (by decide)

theorem parser_no_delimiter_gives_defaults_witness :
    (get_script_info_fields "/scripts/plain.py" "x = 1\n").description = "PyQGIS Script" ∧
    (get_script_info_fields "/scripts/plain.py" "x = 1\n").toolbar = false ∧
    (get_script_info_fields "/scripts/plain.py" "x = 1\n").toolbar_label = none ∧
    (get_script_info_fields "/scripts/plain.py" "x = 1\n").validated = false :=
  parser_no_delimiter_gives_defaults "/scripts/plain.py" "x = 1\n" rfl

/-- Two comment-only lines mentioning risky calls. -/
def commentLines : List (List Char) :=
  ["# subprocess.call(x)".data, "  # eval(z)".data]

theorem scanner_excludes_exactly_comment_lines_witness :
    validate_script_imports (String.mk (pyJoinNl commentLines)) = [] :=
  (scanner_excludes_exactly_comment_lines commentLines (by decide) (by decide)).2
    (by decide)

/-- A state whose acknowledgement set already holds one path. -/
def ackSt : MState := ⟨[], ["/scripts/a.py"], [], "", ""⟩

theorem ack_set_invariant_witness :
    "/scripts/a.py" ∈ (applyOps ackSt [Op.reloadScripts []]).acknowledged :=
  (ack_set_invariant [Op.reloadScripts []] ackSt).1 "/scripts/a.py" (by decide)

end ScriptManagerModel
